import Mathlib

/-!
Shallow embedding of the aggregation core of the Marvel comics-count API
(`app/utils.py`): the character-side aggregation
(`get_comics_count_from_characters` / `aggregate_characters` /
`get_comics_count`) and the comic-side aggregation
(`get_comics_count_from_comics` / `get_comics` / `aggregate_comics_results`).

Network calls are modelled by passing their outcomes in explicitly: the
primary listing call as an `Except String` value (a `RequestException` or
non-2xx status surfaces as the `.error` case, mirroring `raise_for_status`),
and the per-character secondary lookup as an oracle `Int → LookupResp`.
JSON fields that may be absent are modelled with `Option`; Python's
`d.get("data", {}).get("results", [])` becomes `Option.getD _ []`.
-/

/-- Output record shape (`models.CharacterComicsData` / a row of the
aggregated result): `{character_name, comics_count}`. -/
structure AggregatedCount where
  character_name : String
  comics_count : Nat
deriving Repr, DecidableEq

/-- One entry of the upstream character listing, as used by
`aggregate_characters`: only `char["name"]` and `char["id"]` are read. -/
structure CharEntry where
  name : String
  id : Int
deriving Repr, DecidableEq

/-- One entry of the per-character comics listing; `get_comics_count` only
takes the length of the list, no field of an entry is read. -/
structure ComicEntry where
  id : Int
deriving Repr, DecidableEq

/-- Payload of the per-character comics lookup: `data.results`, possibly
missing (`none` models a payload without the field). -/
structure ComicsPayload where
  results : Option (List ComicEntry)
deriving Repr, DecidableEq

/-- Outcome of the secondary per-character lookup in `get_comics_count`:
a 200 response with a JSON payload, a non-200 status (`status_code`,
`reason`), or a raised `requests.exceptions.RequestException`. -/
inductive LookupResp where
  | success (payload : ComicsPayload)
  | httpFailure (status : Nat) (reason : String)
  | requestError (msg : String)
deriving Repr, DecidableEq

/-- Embeds `get_comics_count` (utils.py:162-222): on status 200 return
`len(data.results)` (missing/empty list counts as 0); on any non-200 status
or request exception print and return 0. -/
def get_comics_count : LookupResp → Nat
  | .success p => (p.results.getD []).length
  | .httpFailure _ _ => 0
  | .requestError _ => 0

/-- Python truthiness of the optional `character_name` argument:
`if character_name:` is false for `None` and for the empty string. -/
def truthyName : Option String → Bool
  | none => false
  | some s => !s.isEmpty

/-- Result of `aggregate_characters`: either the list-of-dicts success
value or the `{"error": msg}` dict. -/
inductive CharsOut where
  | records (rows : List AggregatedCount)
  | errorObj (msg : String)
deriving Repr, DecidableEq

/-- The filter step of `aggregate_characters` (utils.py:138-141): when the
name argument is truthy keep exactly the rows whose `character_name` equals
it, otherwise keep everything. -/
def filteredChars (results : List CharEntry) (character_name : Option String) :
    List CharEntry :=
  if truthyName character_name then
    results.filter (fun c => c.name == character_name.getD "")
  else results

/-- Embeds `aggregate_characters` (utils.py:106-159): extract
`data.results` (`payload` here is already that optional list); error out on
an empty list; filter by the truthy name; map each surviving character to
`{character_name, comics_count := get_comics_count id}`; return the rows as
dicts. The lookup oracle gives each `rq.get` outcome. -/
def aggregate_characters (lookup : Int → LookupResp)
    (payload : Option (List CharEntry)) (character_name : Option String) :
    CharsOut :=
  let results := payload.getD []
  if results.isEmpty then
    .errorObj "No characters found in the data"
  else
    .records ((filteredChars results character_name).map (fun c =>
      { character_name := c.name, comics_count := get_comics_count (lookup c.id) }))

/-- Embeds `get_comics_count_from_characters` (utils.py:12-56): the fetch
outcome of `fetch_characters` is passed in; a fetch error becomes
`{"error": "Error fetching data: ..."}`, otherwise `aggregate_characters`
runs on the payload. -/
def get_comics_count_from_characters (lookup : Int → LookupResp)
    (fetched : Except String (Option (List CharEntry)))
    (character_name : Option String) : CharsOut :=
  match fetched with
  | .error e => .errorObj ("Error fetching data: " ++ e)
  | .ok payload => aggregate_characters lookup payload character_name

/-- One entry of a comic's embedded `characters.items` array; only
`character["name"]` is read. -/
structure CharItem where
  name : String
deriving Repr, DecidableEq

/-- The `characters` sub-object of a comic: `available` and `items`. -/
structure CharactersField where
  available : Int
  items : List CharItem
deriving Repr, DecidableEq

/-- One entry of the upstream comics listing: `id` plus the `characters`
sub-object, `none` modelling a comic where the `"characters"` key is
missing (indexing it raises `KeyError`). -/
structure Comic where
  id : Int
  characters : Option CharactersField
deriving Repr, DecidableEq

/-- The intermediate `data` records of `aggregate_comics_results`:
`{"id": ..., "characters": [names]}`. -/
structure ComicData where
  id : Int
  characters : List String
deriving Repr, DecidableEq

/-- The `data = list(map(..., filter(lambda comic:
comic["characters"]["available"] > 0, comics_data)))` step
(utils.py:329-342). Python evaluates the filter predicate on every comic in
order, so the first comic whose `"characters"` key is missing raises
`KeyError("characters")`; otherwise comics with `available > 0` are mapped
to `{id, [item names]}` and the rest are dropped. -/
def buildData : List Comic → Except String (List ComicData)
  | [] => .ok []
  | c :: rest =>
    match c.characters with
    | none => .error "characters"
    | some cf =>
      if cf.available > 0 then
        match buildData rest with
        | .error k => .error k
        | .ok ds => .ok ({ id := c.id, characters := cf.items.map (·.name) } :: ds)
      else buildData rest

/-- Python's `functools.reduce(lambda x, y: x + y, xs)` on a list of lists:
no initial value, so the empty list raises `TypeError` (`none`). -/
def reduceConcat : List (List α) → Option (List α)
  | [] => none
  | x :: xs => some (xs.foldl (· ++ ·) x)

/-- A single quote character, for rendering Python's `str(KeyError(k))`. -/
def pySquote : String := String.singleton (Char.ofNat 39)

/-- Message of the `except KeyError` branch (utils.py:380-383):
`f"Missing key {str(e)} in the comic data."`, where `str(KeyError(k))` is
the key in single quotes. -/
def missingKeyMsg (k : String) : String :=
  "Missing key " ++ pySquote ++ k ++ pySquote ++ " in the comic data."

/-- The DataFrame returned by `aggregate_comics_results`: either the
grouped counts, or a one-column `{"error": [msg]}` frame built in one of
the except branches. -/
inductive CDF where
  | counts (rows : List AggregatedCount)
  | errdf (msg : String)
deriving Repr, DecidableEq

/-- The `groupby("character_name").agg(n_unique("comic_id"))` step
(utils.py:374-376) on the (comic_id, character_name) rows: one output row
per distinct name carrying the number of distinct comic ids grouped under
it (polars leaves the group order unspecified; the deduplicated name list
fixes one deterministic order, and the counts are order-independent). -/
def groupCounts (df : List (Int × String)) : List AggregatedCount :=
  ((df.map Prod.snd).dedup).map (fun n =>
    { character_name := n
      comics_count := ((df.filter (fun p => p.2 == n)).map Prod.fst).dedup.length })

/-- Embeds `aggregate_comics_results` (utils.py:314-395): build `data` (a
missing `"characters"` key raises `KeyError`, caught into an error frame); build
the two DataFrame columns by `reduce`-concatenation (empty `data` raises
`TypeError`, caught into an error frame); optionally filter rows by the
truthy character name; group by name counting distinct comic ids. -/
def aggregate_comics_results (comics_data : List Comic)
    (character_name : Option String) : CDF :=
  match buildData comics_data with
  | .error k => .errdf (missingKeyMsg k)
  | .ok data =>
    match reduceConcat (data.map (fun d => d.characters.map (fun _ => d.id))),
          reduceConcat (data.map (·.characters)) with
    | some ids, some names =>
      let df := ids.zip names
      let df := if truthyName character_name then
          df.filter (fun p => p.2 == character_name.getD "")
        else df
      .counts (groupCounts df)
    | _, _ => .errdf "Type error encountered during processing."

/-- Embeds `get_comics` (utils.py:261-311): the HTTP outcome is passed in;
a request error becomes `{"error": "Request error: ..."}`; on success
extract `data.results` and error out when it is empty or missing. -/
def get_comics (resp : Except String (Option (List Comic))) :
    Except String (List Comic) :=
  match resp with
  | .error e => .error ("Request error: " ++ e)
  | .ok payload =>
    let result := payload.getD []
    if result.isEmpty then .error "No comic data found in the response."
    else .ok result

/-- Result of `get_comics_count_from_comics`: the list of row dicts from
`to_dicts()` on a counts frame, the one-element list `[{"error": msg}]`
from `to_dicts()` on an error frame, or the plain `{"error": msg}` dict
propagated from `get_comics`. -/
inductive ComicsOut where
  | records (rows : List AggregatedCount)
  | errorList (msg : String)
  | errorObj (msg : String)
deriving Repr, DecidableEq

/-- Embeds `get_comics_count_from_comics` (utils.py:225-258): propagate a
`get_comics` error dict unchanged; otherwise aggregate and return
`.to_dicts()` of the resulting frame. -/
def get_comics_count_from_comics (resp : Except String (Option (List Comic)))
    (character_name : Option String) : ComicsOut :=
  match get_comics resp with
  | .error msg => .errorObj msg
  | .ok comics =>
    match aggregate_comics_results comics character_name with
    | .counts rows => .records rows
    | .errdf m => .errorList m

/-- Availability predicate of the filter step: the comic has a `characters`
field and its `available` count is positive. -/
def availPos (c : Comic) : Bool :=
  match c.characters with
  | some cf => decide (cf.available > 0)
  | none => false

/-- The names of the characters embedded in a comic (empty when the
`characters` field is missing). -/
def namesOf (c : Comic) : List String :=
  ((c.characters.map (·.items)).getD []).map (·.name)

/-- The intermediate records a fully well-shaped comics listing produces:
one `{id, [names]}` per comic passing the availability filter. -/
def dataOf (comics : List Comic) : List ComicData :=
  (comics.filter availPos).map (fun c => { id := c.id, characters := namesOf c })

/-- The (comic_id, character_name) rows a `data` list yields, one row per
(comic, embedded character) combination. -/
def pairsOf (data : List ComicData) : List (Int × String) :=
  data.flatMap (fun d => d.characters.map (fun n => (d.id, n)))

/-- The (comic_id, character_name) pairs of a comics listing, read directly
off the raw input: every comic whose `characters` field is present with
`available > 0` contributes one pair per entry of its `items`. -/
def specPairs (comics : List Comic) : List (Int × String) :=
  (comics.filter availPos).flatMap (fun c => (namesOf c).map (fun n => (c.id, n)))

/-- The number of distinct comic ids paired with character `n` in the raw
comics listing. -/
def distinctComicsOf (comics : List Comic) (n : String) : Nat :=
  (((specPairs comics).filter (fun p => p.2 == n)).map Prod.fst).dedup.length

/-- Predicate for a comic the availability filter excludes with an exactly
zero embedded-character count: `characters` present, `available == 0`. -/
def zeroAvail (c : Comic) : Bool :=
  match c.characters with
  | some cf => cf.available == 0
  | none => false

/-- The row `aggregate_characters` emits for one surviving character:
its name together with the count its own secondary lookup yields. -/
def charRow (lookup : Int → LookupResp) (c : CharEntry) : AggregatedCount :=
  { character_name := c.name, comics_count := get_comics_count (lookup c.id) }

/-!
### Helper lemmas

Shared facts about the embedded operations, used by several claim theorems
below.
-/

theorem foldl_append_eq (xs : List (List α)) (x : List α) :
    xs.foldl (· ++ ·) x = x ++ xs.flatten := by
  induction xs generalizing x with
  | nil => simp
  | cons y ys ih => simp [ih, List.append_assoc]

theorem reduceConcat_eq (xs : List (List α)) (hx : xs ≠ []) :
    reduceConcat xs = some xs.flatten := by
  cases xs with
  | nil => exact absurd rfl hx
  | cons y ys => simp [reduceConcat, foldl_append_eq]

theorem buildData_ok_eq (comics : List Comic) (data : List ComicData)
    (h : buildData comics = .ok data) : data = dataOf comics := by
  induction comics generalizing data with
  | nil =>
    simp [buildData] at h
    simp [dataOf, ← h]
  | cons c rest ih =>
    cases hc : c.characters with
    | none => simp [buildData, hc] at h
    | some cf =>
      by_cases hav : cf.available > 0
      · cases hr : buildData rest with
        | error k => simp [buildData, hc, hav, hr] at h
        | ok ds =>
          simp [buildData, hc, hav, hr] at h
          simp [dataOf, List.filter_cons, availPos, hc, hav, namesOf, ← h,
            ih ds hr]
      · simp [buildData, hc, hav] at h
        simpa [dataOf, List.filter_cons, availPos, hc, hav] using ih data h

theorem buildData_error_of_missing (comics : List Comic)
    (h : ∃ c ∈ comics, c.characters = none) :
    buildData comics = .error "characters" := by
  induction comics with
  | nil => simp at h
  | cons c rest ih =>
    rcases h with ⟨c', hc', hnone⟩
    rcases List.mem_cons.mp hc' with rfl | hmem
    · simp [buildData, hnone]
    · cases hc : c.characters with
      | none => simp [buildData, hc]
      | some cf =>
        have hrest := ih ⟨c', hmem, hnone⟩
        by_cases hav : cf.available > 0
        · simp [buildData, hc, hav, hrest]
        · simp [buildData, hc, hav, hrest]

theorem buildData_skips_zeroAvail (comics : List Comic) :
    buildData (comics.filter (fun c => !zeroAvail c)) = buildData comics := by
  induction comics with
  | nil => rfl
  | cons c rest ih =>
    cases hc : c.characters with
    | none =>
      have hz : zeroAvail c = false := by simp [zeroAvail, hc]
      simp [List.filter_cons, hz, buildData, hc]
    | some cf =>
      by_cases h0 : cf.available = 0
      · have hz : zeroAvail c = true := by simp [zeroAvail, hc, h0]
        have hav : ¬ cf.available > 0 := by simp [h0]
        simp [List.filter_cons, hz, buildData, hc, hav, ih]
      · have hz : zeroAvail c = false := by simp [zeroAvail, hc, h0]
        by_cases hav : cf.available > 0
        · simp [List.filter_cons, hz, buildData, hc, hav, ih]
        · simp [List.filter_cons, hz, buildData, hc, hav, ih]

theorem zip_const_map (a : Int) (l : List String) :
    (l.map (fun _ => a)).zip l = l.map (fun n => (a, n)) := by
  induction l with
  | nil => rfl
  | cons x xs ih => simp only [List.map_cons, List.zip_cons_cons, ih]

theorem cols_zip (data : List ComicData) :
    ((data.map (fun d => d.characters.map (fun _ => d.id))).flatten).zip
      ((data.map (·.characters)).flatten) = pairsOf data := by
  induction data with
  | nil => rfl
  | cons d ds ih =>
    simp only [List.map_cons, List.flatten_cons]
    rw [List.zip_append (by simp), zip_const_map, ih]
    simp [pairsOf]

theorem pairsOf_map_comics (l : List Comic) :
    pairsOf (l.map (fun c => { id := c.id, characters := namesOf c })) =
      l.flatMap (fun c => (namesOf c).map (fun n => (c.id, n))) := by
  induction l with
  | nil => rfl
  | cons c cs ih =>
    simp only [List.map_cons, pairsOf, List.flatMap_cons] at ih ⊢
    rw [ih]

theorem pairsOf_dataOf (comics : List Comic) :
    pairsOf (dataOf comics) = specPairs comics := by
  unfold dataOf specPairs
  exact pairsOf_map_comics (comics.filter availPos)

theorem mem_groupCounts (df : List (Int × String)) (r : AggregatedCount)
    (h : r ∈ groupCounts df) :
    r.character_name ∈ df.map Prod.snd ∧
      r.comics_count =
        ((df.filter (fun p => p.2 == r.character_name)).map Prod.fst).dedup.length := by
  unfold groupCounts at h
  rcases List.mem_map.mp h with ⟨n, hn, rfl⟩
  exact ⟨List.mem_dedup.mp hn, rfl⟩

theorem aggregate_comics_eq_counts (comics : List Comic) (cn : Option String)
    (d : ComicData) (ds : List ComicData)
    (hb : buildData comics = .ok (d :: ds)) :
    aggregate_comics_results comics cn =
      .counts (groupCounts (if truthyName cn then
          (specPairs comics).filter (fun p => p.2 == cn.getD "")
        else specPairs comics)) := by
  have hdata : (d :: ds : List ComicData) = dataOf comics :=
    buildData_ok_eq comics _ hb
  unfold aggregate_comics_results
  rw [hb]
  dsimp only
  rw [reduceConcat_eq _ (by simp), reduceConcat_eq _ (by simp)]
  dsimp only
  rw [cols_zip, hdata, pairsOf_dataOf]

/-- C1: every per-character count emitted by the comic aggregation equals
the number of distinct comic ids paired with that character in the raw
input, so a comic id appearing twice with the same character is counted
once. -/
theorem comic_count_is_distinct_count (comics : List Comic) (cn : Option String)
    (rows : List AggregatedCount) (r : AggregatedCount)
    (h : aggregate_comics_results comics cn = .counts rows) (hr : r ∈ rows) :
    r.comics_count = distinctComicsOf comics r.character_name := by
  cases hb : buildData comics with
  | error k =>
    rw [aggregate_comics_results, hb] at h
    exact absurd h (by simp)
  | ok data =>
    cases hd : data with
    | nil =>
      rw [aggregate_comics_results, hb, hd] at h
      simp [reduceConcat] at h
    | cons d ds =>
      rw [hd] at hb
      rw [aggregate_comics_eq_counts comics cn d ds hb] at h
      have hrows : rows = groupCounts (if truthyName cn then
          (specPairs comics).filter (fun p => p.2 == cn.getD "")
        else specPairs comics) := by
        injection h with h
        exact h.symm
      subst hrows
      by_cases ht : truthyName cn
      · rw [if_pos ht] at hr
        rcases mem_groupCounts _ r hr with ⟨hmem, hcnt⟩
        rcases List.mem_map.mp hmem with ⟨p, hp, hpn⟩
        have hps : (p.2 == cn.getD "") = true := (List.mem_filter.mp hp).2
        have hname : r.character_name = cn.getD "" := by
          rw [← hpn]
          exact eq_of_beq hps
        rw [hcnt]
        unfold distinctComicsOf
        rw [List.filter_filter, hname]
        simp
      · rw [if_neg ht] at hr
        unfold distinctComicsOf
        exact (mem_groupCounts _ r hr).2

theorem comic_count_is_distinct_count_witness :
    (AggregatedCount.mk "A" 1).comics_count =
      distinctComicsOf
        [{ id := 10, characters := some { available := 1, items := [{ name := "A" }] } },
         { id := 10, characters := some { available := 1, items := [{ name := "A" }] } }]
        (AggregatedCount.mk "A" 1).character_name :=
  comic_count_is_distinct_count _ none [AggregatedCount.mk "A" 1]
    (AggregatedCount.mk "A" 1) (by decide) (by decide)

/-- C2: with a non-empty character payload, no filter name and no limit,
the character aggregation succeeds with exactly one row per input
character, carrying the same name, in the same order. -/
theorem character_agg_row_per_character (lookup : Int → LookupResp)
    (results : List CharEntry) (h : results ≠ []) :
    aggregate_characters lookup (some results) none =
      .records (results.map (charRow lookup)) ∧
    (results.map (charRow lookup)).length = results.length ∧
    (results.map (charRow lookup)).map (·.character_name) =
      results.map (·.name) := by
  refine ⟨?_, by simp, by simp [charRow]⟩
  simp [aggregate_characters, filteredChars, truthyName, h, charRow]

theorem character_agg_row_per_character_witness :
    aggregate_characters (fun _ => .requestError "down")
        (some [{ name := "A", id := 1 }, { name := "B", id := 2 }]) none =
      .records (([{ name := "A", id := 1 }, { name := "B", id := 2 }] :
          List CharEntry).map (charRow (fun _ => .requestError "down"))) ∧
    (([{ name := "A", id := 1 }, { name := "B", id := 2 }] :
        List CharEntry).map (charRow (fun _ => .requestError "down"))).length =
      ([{ name := "A", id := 1 }, { name := "B", id := 2 }] :
        List CharEntry).length ∧
    (([{ name := "A", id := 1 }, { name := "B", id := 2 }] :
        List CharEntry).map
          (charRow (fun _ => .requestError "down"))).map (·.character_name) =
      ([{ name := "A", id := 1 }, { name := "B", id := 2 }] :
        List CharEntry).map (·.name) :=
  character_agg_row_per_character _ _ (by decide)

/-- C3 (counterexample): a comics listing holding one well-shaped comic and
one comic without the `characters` substructure makes the comic aggregation
return an error frame, while the listing without the malformed comic
aggregates normally — the malformed comic is not silently excluded. -/
theorem missing_characters_not_excluded_counterexample :
    aggregate_comics_results
        [⟨10, some ⟨2, [⟨"A"⟩, ⟨"B"⟩]⟩⟩, ⟨11, none⟩] none
      = .errdf (missingKeyMsg "characters") ∧
    aggregate_comics_results [⟨10, some ⟨2, [⟨"A"⟩, ⟨"B"⟩]⟩⟩] none
      = .counts [{ character_name := "A", comics_count := 1 },
                 { character_name := "B", comics_count := 1 }] := by
  decide

/-- C3 (amended): a comic whose `characters` substructure is missing makes
the whole comic aggregation return the KeyError error frame, regardless of
the other comics and of the filter name. -/
theorem missing_characters_key_yields_error (comics : List Comic)
    (cn : Option String) (h : ∃ c ∈ comics, c.characters = none) :
    aggregate_comics_results comics cn = .errdf (missingKeyMsg "characters") := by
  unfold aggregate_comics_results
  rw [buildData_error_of_missing comics h]

theorem missing_characters_key_yields_error_witness :
    aggregate_comics_results [{ id := 11, characters := none }] none =
      .errdf (missingKeyMsg "characters") :=
  missing_characters_key_yields_error _ none (by decide)

/-- C4: a failing primary listing call (transport failure or non-2xx
status, both raised as a request exception) makes each aggregator return
the uniform error-object result rather than an uncaught exception. -/
theorem primary_failure_uniform_error (lookup : Int → LookupResp)
    (e : String) (cn cn' : Option String) :
    get_comics_count_from_characters lookup (.error e) cn =
      .errorObj ("Error fetching data: " ++ e) ∧
    get_comics_count_from_comics (.error e) cn' =
      .errorObj ("Request error: " ++ e) :=
  ⟨rfl, rfl⟩

/-- C6: comics with `characters.available == 0` never contribute: deleting
all of them from the input leaves the comic aggregation's result unchanged,
and leaves the raw (comic_id, character_name) pair list unchanged. -/
theorem zero_available_contributes_nothing (comics : List Comic)
    (cn : Option String) :
    aggregate_comics_results (comics.filter (fun c => !zeroAvail c)) cn =
      aggregate_comics_results comics cn ∧
    specPairs (comics.filter (fun c => !zeroAvail c)) = specPairs comics := by
  constructor
  · unfold aggregate_comics_results
    rw [buildData_skips_zeroAvail]
  · unfold specPairs
    rw [List.filter_filter]
    congr 1
    apply List.filter_congr
    intro c _
    cases hc : c.characters with
    | none => simp [availPos, zeroAvail, hc]
    | some cf =>
      by_cases hav : cf.available > 0
      · have hz : (cf.available == 0) = false := by
          simp only [beq_eq_false_iff_ne]
          omega
        simp [availPos, zeroAvail, hc, hav, hz]
      · simp [availPos, zeroAvail, hc, hav]

/-- C5: each surviving character's count is computed from its own secondary
lookup alone — the number of `data.results` entries on a 200 response, 0 on
a non-200 status or a transport error — and the aggregation still returns a
success result, the rows being exactly the surviving characters each paired
with the count of its own lookup. -/
theorem secondary_lookup_soft_degrade (lookup : Int → LookupResp)
    (results : List CharEntry) (cn : Option String)
    (p : ComicsPayload) (st : Nat) (reason m : String)
    (h : results ≠ []) :
    get_comics_count (.success p) = (p.results.getD []).length ∧
    get_comics_count (.httpFailure st reason) = 0 ∧
    get_comics_count (.requestError m) = 0 ∧
    aggregate_characters lookup (some results) cn =
      .records ((filteredChars results cn).map (charRow lookup)) := by
  refine ⟨rfl, rfl, rfl, ?_⟩
  have hne : results.isEmpty = false := by
    cases results with
    | nil => exact absurd rfl h
    | cons _ _ => rfl
  simp [aggregate_characters, hne, charRow]

theorem secondary_lookup_soft_degrade_witness :
    get_comics_count (.success ⟨some [⟨5⟩, ⟨6⟩, ⟨7⟩]⟩) =
      ((⟨some [⟨5⟩, ⟨6⟩, ⟨7⟩]⟩ : ComicsPayload).results.getD []).length ∧
    get_comics_count (.httpFailure 500 "Server Error") = 0 ∧
    get_comics_count (.requestError "connection reset") = 0 ∧
    aggregate_characters
        (fun i => if i = 1 then .success ⟨some [⟨5⟩, ⟨6⟩, ⟨7⟩]⟩
          else .requestError "connection reset")
        (some [⟨"A", 1⟩, ⟨"B", 2⟩]) none =
      .records ((filteredChars [⟨"A", 1⟩, ⟨"B", 2⟩] none).map
        (charRow (fun i => if i = 1 then .success ⟨some [⟨5⟩, ⟨6⟩, ⟨7⟩]⟩
          else .requestError "connection reset"))) :=
  secondary_lookup_soft_degrade _ _ none _ 500 "Server Error"
    "connection reset" (by decide)

/-- C7: a truthy filter name keeps exactly the records whose name equals it
under case-sensitive string equality: the rows are the exact matches in
order, their number is the number of exact matches, and when nothing
matches the result is the empty record list, not an error. -/
theorem filter_name_exact_match (lookup : Int → LookupResp)
    (results : List CharEntry) (s : String) (h : results ≠ []) (hs : s ≠ "") :
    aggregate_characters lookup (some results) (some s) =
      .records ((results.filter (fun c => c.name == s)).map (charRow lookup)) ∧
    ((results.filter (fun c => c.name == s)).map (charRow lookup)).length =
      results.countP (fun c => c.name == s) ∧
    (results.countP (fun c => c.name == s) = 0 →
      aggregate_characters lookup (some results) (some s) = .records []) := by
  have hne : results.isEmpty = false := by
    cases results with
    | nil => exact absurd rfl h
    | cons _ _ => rfl
  have hse : s.isEmpty = false := by
    cases hie : s.isEmpty
    · rfl
    · exact absurd ((String.isEmpty_iff s).mp hie) hs
  have htr : truthyName (some s) = true := by
    simp [truthyName, hse]
  have hmain : aggregate_characters lookup (some results) (some s) =
      .records ((results.filter (fun c => c.name == s)).map (charRow lookup)) := by
    simp [aggregate_characters, hne, filteredChars, htr, charRow]
  refine ⟨hmain, by simp [List.countP_eq_length_filter], ?_⟩
  intro h0
  rw [List.countP_eq_length_filter] at h0
  rw [hmain, List.eq_nil_of_length_eq_zero h0]
  rfl

theorem filter_name_exact_match_witness :
    aggregate_characters (fun _ => .requestError "down")
        (some [⟨"Spider-Man", 1⟩, ⟨"spider-man", 2⟩, ⟨"Spider", 3⟩]) (some "Spider-Man") =
      .records (([⟨"Spider-Man", 1⟩, ⟨"spider-man", 2⟩, ⟨"Spider", 3⟩] :
          List CharEntry).filter (fun c => c.name == "Spider-Man") |>.map
            (charRow (fun _ => .requestError "down"))) ∧
    (([⟨"Spider-Man", 1⟩, ⟨"spider-man", 2⟩, ⟨"Spider", 3⟩] :
        List CharEntry).filter (fun c => c.name == "Spider-Man") |>.map
          (charRow (fun _ => .requestError "down"))).length =
      ([⟨"Spider-Man", 1⟩, ⟨"spider-man", 2⟩, ⟨"Spider", 3⟩] :
        List CharEntry).countP (fun c => c.name == "Spider-Man") ∧
    (([⟨"Spider-Man", 1⟩, ⟨"spider-man", 2⟩, ⟨"Spider", 3⟩] :
        List CharEntry).countP (fun c => c.name == "Spider-Man") = 0 →
      aggregate_characters (fun _ => .requestError "down")
        (some [⟨"Spider-Man", 1⟩, ⟨"spider-man", 2⟩, ⟨"Spider", 3⟩])
        (some "Spider-Man") = .records []) :=
  filter_name_exact_match _ _ "Spider-Man" (by decide) (by decide)

/-- C8 (counterexample): on an empty results list the character aggregation
returns the error object with message "No characters found in the data",
not "no characters found", and the comic aggregation returns the error
object with message "No comic data found in the response.", not
"no comic data found". -/
theorem empty_results_message_counterexample :
    aggregate_characters (fun _ => .requestError "x") (some []) none ≠
      .errorObj "no characters found" ∧
    aggregate_characters (fun _ => .requestError "x") (some []) none =
      .errorObj "No characters found in the data" ∧
    get_comics_count_from_comics (.ok (some [])) none ≠
      .errorObj "no comic data found" ∧
    get_comics_count_from_comics (.ok (some [])) none =
      .errorObj "No comic data found in the response." := by
  decide

/-- C8 (amended): when the upstream results list is empty or missing the
character aggregation returns the error object with message "No characters
found in the data" and the comic aggregation returns the error object with
message "No comic data found in the response." — an error object, not an
empty list. -/
theorem empty_results_error_objects (lookup : Int → LookupResp)
    (payload : Option (List CharEntry)) (cpayload : Option (List Comic))
    (cn cn' : Option String)
    (hc : payload.getD [] = []) (hk : cpayload.getD [] = []) :
    aggregate_characters lookup payload cn =
      .errorObj "No characters found in the data" ∧
    get_comics_count_from_comics (.ok cpayload) cn' =
      .errorObj "No comic data found in the response." := by
  constructor
  · simp [aggregate_characters, hc]
  · simp [get_comics_count_from_comics, get_comics, hk]

theorem empty_results_error_objects_witness :
    aggregate_characters (fun _ => .requestError "x") none none =
      .errorObj "No characters found in the data" ∧
    get_comics_count_from_comics (.ok (some ([] : List Comic))) none =
      .errorObj "No comic data found in the response." :=
  empty_results_error_objects _ none (some []) none none (by decide) (by decide)

theorem filteredChars_subset (results : List CharEntry)
    (cn : Option String) : filteredChars results cn ⊆ results := by
  unfold filteredChars
  by_cases ht : truthyName cn
  · rw [if_pos ht]
    exact List.filter_subset' _
  · rw [if_neg ht]
    exact fun x hx => hx

theorem mem_specPairs_name (comics : List Comic) (p : Int × String)
    (hp : p ∈ specPairs comics) :
    ∃ c ∈ comics, ∃ cf, c.characters = some cf ∧
      p.2 ∈ cf.items.map (·.name) := by
  unfold specPairs at hp
  rcases List.mem_flatMap.mp hp with ⟨c, hc, hpc⟩
  rcases List.mem_map.mp hpc with ⟨n, hn, rfl⟩
  refine ⟨c, (List.mem_filter.mp hc).1, ?_⟩
  have hav := (List.mem_filter.mp hc).2
  cases hcc : c.characters with
  | none => simp [availPos, hcc] at hav
  | some cf =>
    refine ⟨cf, rfl, ?_⟩
    simpa [namesOf, hcc] using hn

theorem buildData_all_zero (comics : List Comic)
    (h : ∀ c ∈ comics, zeroAvail c = true) :
    buildData comics = .ok [] := by
  induction comics with
  | nil => rfl
  | cons c rest ih =>
    have hz := h c (List.mem_cons_self c rest)
    cases hc : c.characters with
    | none => simp [zeroAvail, hc] at hz
    | some cf =>
      rw [zeroAvail, hc] at hz
      have h0 : cf.available = 0 := by
        simpa using hz
      have hav : ¬ cf.available > 0 := by omega
      rw [buildData, hc]
      simp only [hav, if_false]
      exact ih (fun c' hc' => h c' (List.mem_cons_of_mem c hc'))

/-- C9 (counterexample): the code validates nothing about names — an
upstream character entry whose name is the empty string is emitted as an
AggregatedCount with an empty character_name. -/
theorem empty_name_emitted_counterexample :
    aggregate_characters (fun _ => .requestError "x")
        (some [⟨"", 1⟩]) none =
      .records [{ character_name := "", comics_count := 0 }] := by
  decide

/-- C9 (amended): every emitted record has comics_count ≥ 0, and its
character_name is drawn from the input payload, hence non-empty whenever
every name in the input payload is non-empty (the code itself performs no
validation). -/
theorem emitted_record_invariant (lookup : Int → LookupResp)
    (results : List CharEntry) (cn : Option String)
    (comics : List Comic) (cn' : Option String)
    (crows rows : List AggregatedCount) (r r' : AggregatedCount)
    (hchar : ∀ c ∈ results, c.name.isEmpty = false)
    (hitem : ∀ c ∈ comics, ∀ cf, c.characters = some cf →
      ∀ it ∈ cf.items, it.name.isEmpty = false)
    (h1 : aggregate_characters lookup (some results) cn = .records crows)
    (hr : r ∈ crows)
    (h2 : aggregate_comics_results comics cn' = .counts rows)
    (hr' : r' ∈ rows) :
    (0 ≤ r.comics_count ∧ r.character_name.isEmpty = false) ∧
    (0 ≤ r'.comics_count ∧ r'.character_name.isEmpty = false) := by
  constructor
  · simp only [aggregate_characters, Option.getD_some] at h1
    by_cases hne : results.isEmpty
    · rw [if_pos hne] at h1
      exact absurd h1 (by simp)
    · rw [if_neg hne] at h1
      injection h1 with h1
      subst h1
      rcases List.mem_map.mp hr with ⟨c, hc, rfl⟩
      exact ⟨Nat.zero_le _, hchar c (filteredChars_subset results cn hc)⟩
  · cases hb : buildData comics with
    | error k =>
      rw [aggregate_comics_results, hb] at h2
      exact absurd h2 (by simp)
    | ok data =>
      cases hd : data with
      | nil =>
        rw [aggregate_comics_results, hb, hd] at h2
        simp [reduceConcat] at h2
      | cons d ds =>
        rw [hd] at hb
        rw [aggregate_comics_eq_counts comics cn' d ds hb] at h2
        injection h2 with h2
        subst h2
        rcases mem_groupCounts _ r' hr' with ⟨hmem, _⟩
        rcases List.mem_map.mp hmem with ⟨p, hp, hpn⟩
        have hsub : (if truthyName cn' then
            (specPairs comics).filter (fun q => q.2 == cn'.getD "")
          else specPairs comics) ⊆ specPairs comics := by
          by_cases ht : truthyName cn'
          · rw [if_pos ht]
            exact List.filter_subset' _
          · rw [if_neg ht]
            exact fun x hx => hx
        rcases mem_specPairs_name comics p (hsub hp) with ⟨c, hcm, cf, hcf, hnm⟩
        rcases List.mem_map.mp hnm with ⟨it, hit, hitn⟩
        refine ⟨Nat.zero_le _, ?_⟩
        rw [← hpn, ← hitn]
        exact hitem c hcm cf hcf it hit

theorem emitted_record_invariant_witness :
    (0 ≤ (AggregatedCount.mk "A" 0).comics_count ∧
      (AggregatedCount.mk "A" 0).character_name.isEmpty = false) ∧
    (0 ≤ (AggregatedCount.mk "B" 1).comics_count ∧
      (AggregatedCount.mk "B" 1).character_name.isEmpty = false) :=
  emitted_record_invariant (fun _ => .requestError "x")
    [⟨"A", 1⟩] none [⟨10, some ⟨1, [⟨"B"⟩]⟩⟩] none
    [AggregatedCount.mk "A" 0] [AggregatedCount.mk "B" 1]
    (AggregatedCount.mk "A" 0) (AggregatedCount.mk "B" 1)
    (by decide) (by decide) (by decide) (by decide) (by decide) (by decide)

/-- C10: a non-empty comics listing in which every comic carries
`characters.available == 0` leaves the candidate set empty, so the
`reduce` over the empty pair sequence raises TypeError, which is caught and
surfaced: the endpoint returns a one-element list holding an error object,
not an empty list. -/
theorem all_zero_available_yields_error_list (comics : List Comic)
    (cn : Option String) (hne : comics ≠ [])
    (hall : ∀ c ∈ comics, zeroAvail c = true) :
    get_comics_count_from_comics (.ok (some comics)) cn =
      .errorList "Type error encountered during processing." := by
  have hb := buildData_all_zero comics hall
  have hne' : comics.isEmpty = false := by
    cases comics with
    | nil => exact absurd rfl hne
    | cons _ _ => rfl
  rw [get_comics_count_from_comics, get_comics]
  simp only [Option.getD_some, hne', Bool.false_eq_true, if_false]
  rw [aggregate_comics_results, hb]
  simp [reduceConcat]

theorem all_zero_available_yields_error_list_witness :
    get_comics_count_from_comics
        (.ok (some [⟨10, some ⟨0, [⟨"A"⟩]⟩⟩, ⟨11, some ⟨0, []⟩⟩])) none =
      .errorList "Type error encountered during processing." :=
  all_zero_available_yields_error_list _ none (by decide) (by decide)
